import Mathlib

/-!
Verification development for the conversational tool-orchestration engine in
src/routes/message_routes.py. Each Python function relevant to the checked
properties is shallowly embedded as an executable Lean definition; external
collaborators (Redis, PostgreSQL, the LLM API, object storage) are modelled
as explicit inputs. Machine behaviour that raises exceptions is modelled with
Except or with explicit outcome flags.
-/

/- ================================================================
   is_layer_id  (message_routes.py lines 484-485)

   Python:
     def is_layer_id(s: str) -> bool:
         return isinstance(s, str) and s[0] == "L" and len(s) == 12

   For a string argument, isinstance(s, str) is True; the expression s[0]
   raises IndexError when s is empty. We model the call on a string as an
   Except: .error for an escaping exception, .ok for a normal return.
   ================================================================ -/

def is_layer_id (s : String) : Except String Bool :=
  if s.length = 0 then
    .error "IndexError: string index out of range"
  else
    .ok ((s.front == 'L') && (s.length == 12))

/- ================================================================
   Layer attachment (message_routes.py lines 1563-1575 and 1629-1640)

   Both new_layer_from_postgis and add_layer_to_map run the same SQL:

     UPDATE user_mundiai_maps
     SET layers = CASE
         WHEN layers IS NULL THEN ARRAY[$1]
         ELSE array_append(layers, $1)
     END
     WHERE id = $2 AND (layers IS NULL OR NOT ($1 = ANY(layers)))

   The layers column is NULL or an array of layer ids; the WHERE clause
   makes the UPDATE a no-op when the id is already present.
   ================================================================ -/

def attach_layer_to_map (layers : Option (List String)) (layer_id : String) :
    Option (List String) :=
  match layers with
  | none => some [layer_id]
  | some ls => if layer_id ∈ ls then some ls else some (ls ++ [layer_id])

/-- The invariant that a layers column value holds no duplicate layer id. -/
def LayersNodup (layers : Option (List String)) : Prop :=
  ∀ ls, layers = some ls → ls.Nodup

/- ================================================================
   Conversation lock (send_map_message, message_routes.py lines 2036-2045)

   Python:
     lock_key = f"chat_lock:{conversation.id}"
     if redis.get(lock_key):
         raise HTTPException(status_code=409, ...)
     redis.set(lock_key, "locked", ex=30)

   The rejection raises before any system/user message is inserted and
   before process_chat_interaction_task is started or queued. Acquisition
   is two separate Redis commands: a GET, then an unconditional SET.
   ================================================================ -/

structure SendOutcome where
  conflict409 : Bool
  lockSetByRequest : Bool
  messagesPersisted : Nat
  orchestrationStarted : Bool
  queued : Bool
deriving DecidableEq, Repr

/-- Sequential behaviour of the lock section plus the persistence section of
send_map_message, for one request. `lockHeld` is what the GET observes;
`nSystemMsgs` is how many system messages the map-state provider yields.
On conflict the HTTPException aborts the handler before any insert. -/
def send_map_message (lockHeld : Bool) (nSystemMsgs : Nat) : SendOutcome :=
  if lockHeld then
    { conflict409 := true, lockSetByRequest := false, messagesPersisted := 0,
      orchestrationStarted := false, queued := false }
  else
    { conflict409 := false, lockSetByRequest := true,
      messagesPersisted := nSystemMsgs + 1,
      orchestrationStarted := true, queued := false }

/-- One request executing the lock-acquisition section of send_map_message,
as a program counter over its two Redis commands:
pc 0 = about to GET, pc 1 = about to SET, pc 2 = acquired (proceeding),
pc 3 = rejected with 409. `stepReq lock pc` returns the new store value,
the new pc, and whether this step executed SET while the lock was
already present in the store. -/
def stepReq (lock : Bool) (pc : Nat) : Bool × Nat × Bool :=
  match pc with
  | 0 => if lock then (lock, 3, false) else (lock, 1, false)
  | 1 => (true, 2, lock)
  | _ => (lock, pc, false)

structure TwoReqState where
  lock : Bool
  aPc : Nat
  bPc : Nat
  setWhileHeld : Bool
deriving DecidableEq, Repr

/-- Run two concurrent requests for the same conversation against the shared
Redis store. Each Redis command is one atomic step; the schedule says which
request issues the next command (false = request A, true = request B).
Requests arriving at separate server processes interleave exactly like this
between the GET at line 2038 and the SET at line 2045. -/
def runSchedule : List Bool → TwoReqState → TwoReqState
  | [], st => st
  | b :: rest, st =>
    if b then
      match stepReq st.lock st.bPc with
      | (l, pc, w) =>
        runSchedule rest { st with lock := l, bPc := pc,
                                   setWhileHeld := st.setWhileHeld || w }
    else
      match stepReq st.lock st.aPc with
      | (l, pc, w) =>
        runSchedule rest { st with lock := l, aPc := pc,
                                   setWhileHeld := st.setWhileHeld || w }

/-- Initial shared state: lock absent, both requests before their GET. -/
def twoReqInit : TwoReqState :=
  { lock := false, aPc := 0, bPc := 0, setWhileHeld := false }

/- ================================================================
   PostgreSQL EXPLAIN plan tree and check_postgis_readonly
   (message_routes.py lines 488-492)

   Python:
     def check_postgis_readonly(plan: dict):
         if plan.get("Node Type") == "ModifyTable":
             raise ValueError("Write operations not allowed")
         for child in plan.get("Plans", []):
             check_postgis_readonly(child)

   A plan node is its Node Type string plus its Plans children; we model
   the function as a Bool (true = returned normally, false = raised).
   ================================================================ -/

mutual
inductive Plan where
  | node (nodeType : String) (plans : PlanList)
deriving DecidableEq, Repr
inductive PlanList where
  | nil
  | cons (hd : Plan) (tl : PlanList)
deriving DecidableEq, Repr
end

mutual
def check_postgis_readonly : Plan → Bool
  | .node nodeType plans =>
    !(nodeType == "ModifyTable") && check_postgis_readonly_children plans
def check_postgis_readonly_children : PlanList → Bool
  | .nil => true
  | .cons hd tl => check_postgis_readonly hd && check_postgis_readonly_children tl
end

/- A plan tree contains a write-type plan node: some node reachable through
the Plans children has Node Type ModifyTable. -/
mutual
def hasModifyNode : Plan → Bool
  | .node nodeType plans => (nodeType == "ModifyTable") || hasModifyNodeList plans
def hasModifyNodeList : PlanList → Bool
  | .nil => false
  | .cons hd tl => hasModifyNode hd || hasModifyNodeList tl
end

/- ================================================================
   new_layer_from_postgis tool handler
   (message_routes.py lines 1281-1596)

   The handler, after arguments and connection lookup, runs inside a try:
     1. EXPLAIN (FORMAT JSON) query           -- planner only, reads no rows
     2. check_postgis_readonly on the plan    -- raises on ModifyTable
     3. prepare SELECT * FROM (query) sub LIMIT 1; get_attributes()
        gives the projected column names      -- metadata only, no rows
     4. raise ValueError unless both geom and id are projected
     5. SELECT COUNT(*), the geometry-type query, and (when a geometry
        type was found) the bounds query      -- these read table data
     6. INSERT INTO map_layers; optionally INSERT the default style; then
        UPDATE user_mundiai_maps to attach the layer.
   Any exception is caught and becomes
     {"status": "error", "error": f"Query validation failed: {str(e)}"}.

   The external database is abstracted as PostgisEnv; the effects record
   counts data-reading queries executed and which rows were inserted.
   ================================================================ -/

structure PostgisEnv where
  connectionExists : Bool
  plan : Plan
  columns : List String
  featureCount : Nat
  geomType : Option String
  styleGenOk : Bool
  newLayerId : String
deriving Repr

structure PostgisToolResult where
  status : String
  error : Option String
  layer_id : Option String
  added_to_map : Bool
deriving DecidableEq, Repr

structure PostgisEffects where
  dataReads : Nat
  layerInserted : Bool
  styleInserted : Bool
  mapLayersUpdated : Bool
deriving DecidableEq, Repr

def noPostgisEffects : PostgisEffects :=
  { dataReads := 0, layerInserted := false, styleInserted := false,
    mapLayersUpdated := false }

def postgisError (msg : String) : PostgisToolResult :=
  { status := "error", error := some msg, layer_id := none, added_to_map := false }

/-- query.rstrip().rstrip(";") from line 1287. -/
def stripTrailingSemis (s : String) : String :=
  String.mk (((s.toList.reverse.dropWhile Char.isWhitespace).dropWhile
    (fun c => c == ';')).reverse)

def new_layer_from_postgis (env : PostgisEnv)
    (postgis_connection_id query layer_name : String) :
    PostgisToolResult × PostgisEffects :=
  let query := stripTrailingSemis query
  if postgis_connection_id = "" || query = "" then
    (postgisError "Missing required parameters (postgis_connection_id or query).",
     noPostgisEffects)
  else if !env.connectionExists then
    (postgisError ("PostGIS connection \x27" ++ postgis_connection_id ++
       "\x27 not found or you do not have access to it."), noPostgisEffects)
  else if !check_postgis_readonly env.plan then
    (postgisError "Query validation failed: Write operations not allowed",
     noPostgisEffects)
  else if !(env.columns.contains "geom") then
    (postgisError
       "Query validation failed: Query must return a column named \x27geom\x27",
     noPostgisEffects)
  else if !(env.columns.contains "id") then
    (postgisError
       "Query validation failed: Query must return a column named \x27id\x27",
     noPostgisEffects)
  else
    let reads := if env.geomType.isSome then 3 else 2
    ({ status := "success", error := none, layer_id := some env.newLayerId,
       added_to_map := true },
     { dataReads := reads, layerInserted := true,
       styleInserted := env.geomType.isSome && env.styleGenOk,
       mapLayersUpdated := true })

/- ================================================================
   query_postgis_database tool handler
   (message_routes.py lines 1808-1968)

   The LIMIT clause is located with
     re.search(r"\bLIMIT\s+(\d+)\b", limited_query, re.IGNORECASE)
   on limited_query = sql_query.strip().  We embed that regex as a direct
   left-to-right scan: at the first position preceded by a non-word
   character (or the start) where the letters l i m i t appear case
   insensitively, followed by one or more whitespace characters, then a
   maximal run of one or more digits whose following character is not a
   word character, the digit run is the captured group.
   ================================================================ -/

def isWordChar (c : Char) : Bool :=
  c.isAlpha || c.isDigit || c == '_'

def isRegexSpace (c : Char) : Bool :=
  c == ' ' || c == '\t' || c == '\n' || c == '\r' || c == '\x0b' || c == '\x0c'

def digitsVal (ds : List Char) : Nat :=
  ds.foldl (fun acc c => acc * 10 + (c.toNat - 48)) 0

/-- Case-insensitive match of the literal pattern letters against the head
of the input; returns the remaining input on success. -/
def matchCI : List Char → List Char → Option (List Char)
  | [], rest => some rest
  | _ :: _, [] => none
  | p :: ps, c :: cs => if c.toLower == p then matchCI ps cs else none

/-- After the letters of LIMIT: require whitespace+, then digits+, then a
word boundary (end of input or a non-word character). Returns the numeric
value of the digit group. -/
def matchAfterLimit (cs : List Char) : Option Nat :=
  let ws := cs.takeWhile isRegexSpace
  let rest1 := cs.drop ws.length
  if ws.isEmpty then none
  else
    let ds := rest1.takeWhile Char.isDigit
    let rest2 := rest1.drop ds.length
    if ds.isEmpty then none
    else
      match rest2 with
      | [] => some (digitsVal ds)
      | c :: _ => if isWordChar c then none else some (digitsVal ds)

/-- Leftmost-match scan of the whole input; prevWord says whether the
character just before the current position is a word character. -/
def searchLimit (prevWord : Bool) : List Char → Option Nat
  | [] => none
  | c :: rest =>
    let here : Option Nat :=
      if prevWord then none
      else
        match matchCI ['l', 'i', 'm', 'i', 't'] (c :: rest) with
        | some tail => matchAfterLimit tail
        | none => none
    match here with
    | some v => some v
    | none => searchLimit (isWordChar c) rest

/-- re.search of the LIMIT pattern over a query string: the captured value
of the first match, if any. -/
def findLimit (s : String) : Option Nat :=
  searchLimit false s.toList

/-- Python str.strip(): drop leading and trailing whitespace. -/
def stripWs (s : String) : String :=
  String.mk
    (((s.toList.dropWhile Char.isWhitespace).reverse.dropWhile
      Char.isWhitespace).reverse)

def lookupField {α : Type} (k : String) : List (String × α) → Option α
  | [] => none
  | (k', v) :: rest => if k' = k then some v else lookupField k rest

/-- Formatting of a non-error result (lines 1888-1935): a single row with a
single column becomes "Query result: value"; otherwise a tab-separated
table with a header line taken from the first row. Row values are modelled
already rendered through str(). -/
def formatPgRows (rows : List (List (String × String))) : String :=
  match rows with
  | [] => "No results"
  | [[(_, v)]] => "Query result: " ++ v
  | firstRow :: _ =>
    let headers := firstRow.map Prod.fst
    let lines := (String.intercalate "\t" headers) ::
      rows.map (fun row =>
        String.intercalate "\t" (headers.map
          (fun h => (lookupField h row).getD "")))
    String.intercalate "\n" lines

structure PgQueryResult where
  status : String
  error : Option String
  message : Option String
  result : Option String
  row_count : Option Nat
  query : Option String
deriving DecidableEq, Repr

structure PgQueryOutcome where
  tr : PgQueryResult
  persistedToolMsgs : Nat
  loopContinues : Bool
deriving DecidableEq, Repr

def pgqError (msg : String) : PgQueryResult :=
  { status := "error", error := some msg, message := none, result := none,
    row_count := none, query := none }

def pgqErrorQ (msg q : String) : PgQueryResult :=
  { status := "error", error := some msg, message := none, result := none,
    row_count := none, query := some q }

/-- query_postgis_database handler. connectionExists models the
project_postgres_connections lookup; rows models what the external
database returns for the executed query. Every branch of the Python
handler persists exactly one tool-role message and falls through (or
explicitly continues) to the next tool call, hence persistedToolMsgs = 1
and loopContinues = true on all paths. -/
def query_postgis_database (connectionExists : Bool)
    (rows : List (List (String × String)))
    (postgis_connection_id sql_query : String) : PgQueryOutcome :=
  if postgis_connection_id = "" || sql_query = "" then
    { tr := pgqError
        "Missing required parameters (postgis_connection_id or sql_query)",
      persistedToolMsgs := 1, loopContinues := true }
  else if !connectionExists then
    { tr := pgqError ("PostGIS connection \x27" ++ postgis_connection_id ++
        "\x27 not found or you do not have access to it."),
      persistedToolMsgs := 1, loopContinues := true }
  else
    let limited_query := stripWs sql_query
    match findLimit limited_query with
    | some limit_value =>
      if limit_value > 1000 then
        { tr := pgqError ("LIMIT value " ++ toString limit_value ++
            " exceeds maximum allowed limit of 1000"),
          persistedToolMsgs := 1, loopContinues := true }
      else if rows.isEmpty then
        { tr := { status := "success", error := none,
                  message := some
                    "Query executed successfully but returned no rows",
                  result := none, row_count := some 0,
                  query := some limited_query },
          persistedToolMsgs := 1, loopContinues := true }
      else
        let result_text := formatPgRows rows
        if result_text.length > 25000 then
          { tr := pgqError ("Query result too large: " ++
              toString result_text.length ++
              " characters exceeds 25,000 character limit. Try reducing the number of columns or rows."),
            persistedToolMsgs := 1, loopContinues := true }
        else
          { tr := { status := "success", error := none, message := none,
                    result := some result_text,
                    row_count := some rows.length,
                    query := some limited_query },
            persistedToolMsgs := 1, loopContinues := true }
    | none =>
      { tr := pgqError
          "Query must include a LIMIT clause with a value less than 1000",
        persistedToolMsgs := 1, loopContinues := true }

/- ================================================================
   json_dumps_safe (message_routes.py lines 82-95)

   Python:
     def _json_default(o):
         try:
             iso = getattr(o, "isoformat", None)
             if callable(iso):
                 return iso()
         except Exception:
             pass
         return str(o)

     def json_dumps_safe(obj) -> str:
         return json.dumps(obj, default=_json_default)

   Values reaching the encoder are JSON-native values plus date/datetime
   objects (encoded through isoformat()) and Decimal-like objects (encoded
   through str()). EVal models such a value; encode models the coercion
   json_dumps_safe applies before emitting text, so that the emitted text
   is dumps (encode v) and json.loads of that text is encode v (the
   stdlibguarantee loads(dumps(j)) = j for JSON-native j).
   ================================================================ -/

mutual
inductive EVal where
  | null
  | bool (b : Bool)
  | num (n : Int)
  | str (s : String)
  | date (iso : String)
  | dec (rep : String)
  | arr (xs : EArr)
  | obj (fs : EObj)
deriving DecidableEq, Repr
inductive EArr where
  | nil
  | cons (hd : EVal) (tl : EArr)
deriving DecidableEq, Repr
inductive EObj where
  | nil
  | cons (k : String) (v : EVal) (tl : EObj)
deriving DecidableEq, Repr
end

mutual
def encode : EVal → EVal
  | .null => .null
  | .bool b => .bool b
  | .num n => .num n
  | .str s => .str s
  | .date iso => .str iso
  | .dec rep => .str rep
  | .arr xs => .arr (encodeArr xs)
  | .obj fs => .obj (encodeObj fs)
def encodeArr : EArr → EArr
  | .nil => .nil
  | .cons hd tl => .cons (encode hd) (encodeArr tl)
def encodeObj : EObj → EObj
  | .nil => .nil
  | .cons k v tl => .cons k (encode v) (encodeObj tl)
end

/- A value is JSON-native (what json.loads can ever produce): it holds no
date and no decimal anywhere. -/
mutual
def isPlainJson : EVal → Bool
  | .null => true
  | .bool _ => true
  | .num _ => true
  | .str _ => true
  | .date _ => false
  | .dec _ => false
  | .arr xs => isPlainJsonArr xs
  | .obj fs => isPlainJsonObj fs
def isPlainJsonArr : EArr → Bool
  | .nil => true
  | .cons hd tl => isPlainJson hd && isPlainJsonArr tl
def isPlainJsonObj : EObj → Bool
  | .nil => true
  | .cons _ v tl => isPlainJson v && isPlainJsonObj tl
end

def jsonEscapeChar (c : Char) : String :=
  if c == '"' then "\\\"" else if c == '\\' then "\\\\" else String.singleton c

def jsonQuote (s : String) : String :=
  "\"" ++ String.join (s.toList.map jsonEscapeChar) ++ "\""

/- The emitted text of json.dumps with default separators (", " and ": "),
restricted to the escaping relevant here. -/
mutual
def dumps : EVal → String
  | .null => "null"
  | .bool true => "true"
  | .bool false => "false"
  | .num n => toString n
  | .str s => jsonQuote s
  | .date iso => jsonQuote iso
  | .dec rep => jsonQuote rep
  | .arr xs => "[" ++ dumpsArr xs ++ "]"
  | .obj fs => "\x7b" ++ dumpsObj fs ++ "\x7d"
def dumpsArr : EArr → String
  | .nil => ""
  | .cons hd .nil => dumps hd
  | .cons hd tl => dumps hd ++ ", " ++ dumpsArr tl
def dumpsObj : EObj → String
  | .nil => ""
  | .cons k v .nil => jsonQuote k ++ ": " ++ dumps v
  | .cons k v tl => jsonQuote k ++ ": " ++ dumps v ++ ", " ++ dumpsObj tl
end

def fieldNames : EObj → List String
  | .nil => []
  | .cons k _ tl => k :: fieldNames tl

def lookupEObj (key : String) : EObj → Option EVal
  | .nil => none
  | .cons k v tl => if k = key then some v else lookupEObj key tl

/- ================================================================
   Orchestration loop: process_chat_interaction_task
   (message_routes.py lines 730-1995)

   Per iteration of `for i in range(25)`:
     1. if redis.get(cancelled): redis.delete(cancelled); break
     2. refetch transcript, fetch unattached layers, build tool schemas
     3. LLM call; APIError or any other exception -> kue_notify_error, break
     4. if redis.get(cancelled): redis.delete(cancelled); break
     5. persist the assistant message
     6. if no tool calls: break
        (the per-round project_id fetch + assert at 1050-1056 concerns the
        maps own row, present for a running task; modelled as succeeding)
     7. for each tool call in order:
        tool_args = json.loads(tool_call.function.arguments) at line 1063
        is not inside any try, so an invalid JSON argument string aborts
        the task uncaught, with no tool message for this call. A name in
        the pydantic registry (checked first, line 1066) then executes
        with everything else inside try/except, persisting exactly one
        tool message even on bad or non-object arguments. The static
        if/elif chain and the geoprocessing branch read tool_args as a
        dict and pass some argument values to the database driver outside
        any try, so they too can abort uncaught before their persist (see
        dispatchPersists below). A name in no registry raises
        HTTPException(400) at line 1986. Every abort propagates out of
        the task.
   After the loop (normal exhaustion or break):
     redis.delete(chat_lock) -- NOT inside a finally block, so a
     propagating exception skips it.

   The LLM, the cancellation signal and the tool registries are the
   environment; the run is deterministic given the environment.
   ================================================================ -/

/-- One tool call of an assistant turn: the correlation id, the function
name, and the outcome of json.loads on the raw arguments string — none
when the string is not valid JSON (json.loads at line 1063 raises), some
parsed JSON value otherwise. -/
structure ToolCall where
  id : String
  name : String
  arguments : Option EVal
deriving DecidableEq, Repr

structure AssistantMsg where
  content : String
  tool_calls : List ToolCall
deriving DecidableEq, Repr

inductive LLMResult where
  | ok (msg : AssistantMsg)
  | contextLengthError
  | apiError
  | otherError
deriving DecidableEq, Repr

inductive LogMsg where
  | assistant (calls : List ToolCall)
  | tool (tool_call_id : String)
deriving DecidableEq, Repr

inductive LoopAction where
  | llmCall
  | persistAssistant
  | execTool
  | persistTool
  | deleteCancelFlag
  | notifyError
  | releaseLock
deriving DecidableEq, Repr

inductive ExitKind where
  | completed
  | cancelled
  | llmFailed
  | faulted
deriving DecidableEq, Repr

structure LoopEnv where
  llm : Nat → LLMResult
  pydNames : List String
  geoNames : List String
  cancelBefore : Nat → Bool
  cancelMid : Nat → Bool

/-- The statically dispatched tool names of the if/elif chain. -/
def staticToolNames : List String :=
  ["bloom_study", "new_layer_from_postgis", "add_layer_to_map",
   "query_duckdb_sql", "set_layer_style", "query_postgis_database"]

/-- The JSON value is a string. -/
def isStrVal : EVal → Bool
  | .str _ => true
  | _ => false

/-- The JSON value is a string or null: what asyncpg accepts for a text
query parameter (null is sent as NULL; anything else raises a DataError
at the call site). -/
def strOrNullVal : EVal → Bool
  | .str _ => true
  | .null => true
  | _ => false

/-- Python truthiness of a json.loads result. -/
def pyTruthy : EVal → Bool
  | .null => false
  | .bool b => b
  | .num n => !(n == 0)
  | .str s => !(s == "")
  | .arr .nil => false
  | .arr (.cons _ _) => true
  | .obj .nil => false
  | .obj (.cons _ _ _) => true
  | .date _ => true
  | .dec _ => true

/-- Line 1655: layer_id = tool_args.get("layer_ids", [None])[0], then the
fetchrow at line 1661 with layer_id as parameter, outside any try.
Key absent: the default [None] gives layer_id = None (NULL parameter,
lookup fails, error result persisted). Empty array or empty string:
IndexError. Non-empty array: the first element reaches the driver, so it
must be a string or null. Non-empty string: its first character (a
one-character str) reaches the driver. Any other value: TypeError or
KeyError on the subscript. -/
def duckdbLayerIdsOk : Option EVal → Bool
  | none => true
  | some (.arr (.cons hd _)) => strOrNullVal hd
  | some (.arr .nil) => false
  | some (.str s) => !(s == "")
  | some _ => false

/-- Argument conditions under which a statically dispatched branch reaches
its add_chat_completion_message call instead of raising uncaught, given
that tool_args is a JSON object:
- new_layer_from_postgis: query.rstrip() at line 1287 needs
  tool_args["query"] to be a string (missing or non-string aborts); when
  both the connection id and the stripped query are truthy, the fetchrow
  at line 1297 (outside the try at 1317) receives the connection id, so
  it must then be a string.
- add_layer_to_map: the fetchrow at line 1606 always receives
  tool_args["layer_id"] with no try, so it must be a string or null
  (absent gives None); tool_args["new_name"] reaches the execute at line
  1621 with no try when the layer exists — required unconditionally here,
  which is conservative when the layer does not exist.
- query_duckdb_sql: duckdbLayerIdsOk above (lines 1655 and 1661).
- query_postgis_database: when both arguments are truthy, the fetchrow at
  line 1821 (outside the try at 1836) receives the connection id, and
  sql_query.strip() at line 1838 raising makes the except at line 1955
  hit an unbound limited_query (NameError) — so both must then be
  strings; requiring this whenever both are truthy is conservative when
  the connection lookup would fail.
- bloom_study and set_layer_style guard or catch all argument errors
  themselves and always persist a result. -/
def staticBranchArgsOk (name : String) (fs : EObj) : Bool :=
  if name == "new_layer_from_postgis" then
    match lookupEObj "query" fs with
    | some (.str q) =>
      if pyTruthy ((lookupEObj "postgis_connection_id" fs).getD .null)
          && !(stripTrailingSemis q == "") then
        isStrVal ((lookupEObj "postgis_connection_id" fs).getD .null)
      else true
    | _ => false
  else if name == "add_layer_to_map" then
    strOrNullVal ((lookupEObj "layer_id" fs).getD .null) &&
      strOrNullVal ((lookupEObj "new_name" fs).getD .null)
  else if name == "query_duckdb_sql" then
    duckdbLayerIdsOk (lookupEObj "layer_ids" fs)
  else if name == "query_postgis_database" then
    if pyTruthy ((lookupEObj "postgis_connection_id" fs).getD .null)
        && pyTruthy ((lookupEObj "sql_query" fs).getD .null) then
      isStrVal ((lookupEObj "postgis_connection_id" fs).getD .null) &&
        isStrVal ((lookupEObj "sql_query" fs).getD .null)
    else true
  else true

/-- Whether dispatching this tool call persists exactly one tool-role
message (possibly with an error-status payload) and lets the loop
continue, mirroring the dispatch order of lines 1060-1986: json.loads of
the arguments first (line 1063, uncaught); then the pydantic registry
(line 1066), whose branch catches every argument and handler error; then
the static if/elif chain, which reads tool_args as a dict (a non-object
value aborts on the first .get) and must satisfy staticBranchArgsOk; then
the geoprocessing branch, which also reads tool_args as a dict before its
try (run_geoprocessing_tool lines 512-516) and catches everything after;
else HTTPException(400) at line 1986. When this is false the exception
propagates out of the task with no tool message for this call. -/
def dispatchPersists (env : LoopEnv) (tc : ToolCall) : Bool :=
  match tc.arguments with
  | none => false
  | some args =>
    if env.pydNames.contains tc.name then true
    else
      match args with
      | .obj fs =>
        if staticToolNames.contains tc.name then
          staticBranchArgsOk tc.name fs
        else
          env.geoNames.contains tc.name
      | _ => false

structure CallsResult where
  msgs : List LogMsg
  acts : List LoopAction
  ok : Bool
deriving DecidableEq, Repr

/-- Dispatch the tool calls of one assistant turn in order. A call whose
dispatch persists (dispatchPersists) contributes exactly one tool message
with its id; any other call raises an uncaught exception — invalid JSON
arguments, a pre-persist argument error in its branch, or an unknown
name — so dispatch stops with ok = false and no message for that call. -/
def execCalls (env : LoopEnv) : List ToolCall → CallsResult
  | [] => { msgs := [], acts := [], ok := true }
  | tc :: rest =>
    if dispatchPersists env tc then
      let r := execCalls env rest
      { msgs := .tool tc.id :: r.msgs,
        acts := .execTool :: .persistTool :: r.acts, ok := r.ok }
    else
      { msgs := [], acts := [], ok := false }

structure RunResult where
  log : List LogMsg
  trace : List LoopAction
  flagAfter : Bool
  exit : ExitKind
deriving DecidableEq, Repr

/-- The loop body from round i with the given remaining fuel
(`for i in range(25)` starts with fuel 25). `flag` is the current state
of the messages:map_id:cancelled key; env.cancelBefore i / env.cancelMid i
say whether a cancellation request arrives before the first checkpoint of
round i / between the two checkpoints of round i. -/
def runRounds (env : LoopEnv) (flag : Bool) (i : Nat) : Nat → RunResult
  | 0 => { log := [], trace := [], flagAfter := flag, exit := .completed }
  | fuel + 1 =>
    if flag || env.cancelBefore i then
      { log := [], trace := [.deleteCancelFlag], flagAfter := false,
        exit := .cancelled }
    else
      match env.llm i with
      | .contextLengthError =>
        { log := [], trace := [.llmCall, .notifyError], flagAfter := false,
          exit := .llmFailed }
      | .apiError =>
        { log := [], trace := [.llmCall, .notifyError], flagAfter := false,
          exit := .llmFailed }
      | .otherError =>
        { log := [], trace := [.llmCall, .notifyError], flagAfter := false,
          exit := .llmFailed }
      | .ok msg =>
        if env.cancelMid i then
          { log := [], trace := [.llmCall, .deleteCancelFlag],
            flagAfter := false, exit := .cancelled }
        else if msg.tool_calls.isEmpty then
          { log := [.assistant msg.tool_calls],
            trace := [.llmCall, .persistAssistant], flagAfter := false,
            exit := .completed }
        else
          let c := execCalls env msg.tool_calls
          if c.ok then
            let r := runRounds env false (i + 1) fuel
            { log := .assistant msg.tool_calls :: (c.msgs ++ r.log),
              trace := .llmCall :: .persistAssistant :: (c.acts ++ r.trace),
              flagAfter := r.flagAfter, exit := r.exit }
          else
            { log := .assistant msg.tool_calls :: c.msgs,
              trace := .llmCall :: .persistAssistant :: c.acts,
              flagAfter := false, exit := .faulted }

/-- The whole task: run the loop, then redis.delete(chat_lock). The delete
is a trailing statement, not a finally block: when the loop exits by a
propagating HTTPException (unknown tool name), the delete never runs. -/
def process_chat_interaction_task (env : LoopEnv) : RunResult :=
  let r := runRounds env false 0 25
  if r.exit = .faulted then r
  else { r with trace := r.trace ++ [.releaseLock] }

/- Transcript well-formedness: the persisted log is a sequence of blocks,
each an assistant turn immediately followed by exactly one tool message
per tool call, carrying the matching tool_call_id, in call order. -/
mutual
def answeredOk : List LogMsg → Bool
  | [] => true
  | .assistant calls :: rest => checkAnswers calls rest
  | .tool _ :: _ => false
termination_by l => (l.length, 0)
def checkAnswers : List ToolCall → List LogMsg → Bool
  | [], rest => answeredOk rest
  | tc :: tcs, .tool tid :: rest => (tc.id == tid) && checkAnswers tcs rest
  | _ :: _, [] => false
  | _ :: _, .assistant _ :: _ => false
termination_by calls l => (l.length, calls.length + 1)
end

/-- The hypothesis under which the transcript invariant holds: every tool
call the LLM ever issues dispatches cleanly — its name resolves to a
handler, its arguments string is valid JSON, and its parsed arguments
avoid the uncaught pre-persist argument errors of its branch. -/
def AllCallsDispatchable (env : LoopEnv) : Prop :=
  ∀ i msg, env.llm i = LLMResult.ok msg →
    ∀ tc ∈ msg.tool_calls, dispatchPersists env tc = true

/- Concrete environments used for counterexamples and witnesses. -/

/-- The LLM answers with one tool call whose name is in no registry, with
a well-formed empty-object arguments string. -/
def envUnknownTool : LoopEnv :=
  { llm := fun _ =>
      .ok { content := "",
            tool_calls := [{ id := "call_1", name := "made_up_tool",
                             arguments := some (.obj .nil) }] },
    pydNames := [], geoNames := [],
    cancelBefore := fun _ => false, cancelMid := fun _ => false }

/-- The LLM issues a bloom_study tool call on every round, so the loop only
stops when its 25 rounds are exhausted. -/
def envAllKnown : LoopEnv :=
  { llm := fun _ =>
      .ok { content := "",
            tool_calls := [{ id := "call_1", name := "bloom_study",
                             arguments := some (.obj .nil) }] },
    pydNames := [], geoNames := [],
    cancelBefore := fun _ => false, cancelMid := fun _ => false }

/-- The LLM answers with plain text and no tool calls. -/
def envNoTools : LoopEnv :=
  { llm := fun _ => .ok { content := "hello", tool_calls := [] },
    pydNames := [], geoNames := [],
    cancelBefore := fun _ => false, cancelMid := fun _ => false }

/-- A cancellation request arrives before the first checkpoint of round 0. -/
def envCancelled : LoopEnv :=
  { llm := fun _ =>
      .ok { content := "",
            tool_calls := [{ id := "call_1", name := "bloom_study",
                             arguments := some (.obj .nil) }] },
    pydNames := [], geoNames := [],
    cancelBefore := fun _ => true, cancelMid := fun _ => false }

/-- A ModifyTable plan as returned by EXPLAIN for a DML statement. -/
def planModify : Plan := .node "ModifyTable" (.cons (.node "Seq Scan" .nil) .nil)

/-- A plain read-only plan. -/
def planSeqScan : Plan := .node "Seq Scan" .nil

def envPostgisModify : PostgisEnv :=
  { connectionExists := true, plan := planModify, columns := ["geom", "id"],
    featureCount := 0, geomType := none, styleGenOk := false,
    newLayerId := "LXXXXXXXXXX1" }

def envPostgisNoGeom : PostgisEnv :=
  { connectionExists := true, plan := planSeqScan, columns := ["id", "name"],
    featureCount := 3, geomType := none, styleGenOk := false,
    newLayerId := "LXXXXXXXXXX2" }

def envPostgisNoId : PostgisEnv :=
  { connectionExists := true, plan := planSeqScan, columns := ["geom", "name"],
    featureCount := 3, geomType := some "point", styleGenOk := true,
    newLayerId := "LXXXXXXXXXX3" }

/-- A tool-result payload carrying a date and a decimal besides its status. -/
def sampleFields : EObj :=
  .cons "status" (.str "success")
    (.cons "when" (.date "2024-01-01")
      (.cons "amount" (.dec "1.25") .nil))

def sampleResult : EVal := .obj sampleFields

/- ================================================================
   Theorems
   ================================================================ -/

/-- C10 counterexample: the claim says is_layer_id returns without raising
for every string, but on the empty string the expression s[0] raises
IndexError before the length test is reached. -/
theorem c10_counterexample :
    is_layer_id "" = Except.error "IndexError: string index out of range" ∧
    (is_layer_id "").isOk = false :=
  ⟨rfl, rfl⟩

/-- C10 amended: for every non-empty string s, is_layer_id returns without
raising, and returns true exactly when s has length 12 and its first
character is L; on the empty string it raises IndexError. -/
theorem c10_amended (s : String) (h : s ≠ "") :
    (is_layer_id s).isOk = true ∧
    (is_layer_id s = Except.ok true ↔ s.length = 12 ∧ s.front = 'L') := by
  have hlen : ¬ s.length = 0 := by
    intro h0
    apply h
    cases s with
    | mk data =>
      simp [String.length] at h0
      simp [h0]
  constructor
  · simp [is_layer_id, hlen, Except.isOk, Except.toBool]
  · simp only [is_layer_id, if_neg hlen, Except.ok.injEq, Bool.and_eq_true,
      beq_iff_eq]
    constructor
    · intro hb
      exact ⟨hb.2.symm ▸ rfl, hb.1.symm ▸ rfl⟩
    · intro hb
      exact ⟨by simp [hb.2], by simp [hb.1]⟩

/-- C10 witness: a concrete 12-character string starting with L. -/
theorem c10_witness :
    (is_layer_id "L12345678901").isOk = true ∧
    (is_layer_id "L12345678901" = Except.ok true ↔
      ("L12345678901" : String).length = 12 ∧
      ("L12345678901" : String).front = 'L') :=
  c10_amended "L12345678901" (by decide)

/-- C9: attaching a layer id already present in a maps layers array leaves
the array unchanged; attachment preserves the no-duplicates invariant; and
attachment is idempotent on the layers array. This is the behaviour of the
guarded UPDATE shared by add_layer_to_map and new_layer_from_postgis. -/
theorem c9_attach_idempotent (layers : Option (List String)) (lid : String) :
    (∀ ls, layers = some ls → lid ∈ ls →
      attach_layer_to_map layers lid = layers) ∧
    (LayersNodup layers → LayersNodup (attach_layer_to_map layers lid)) ∧
    attach_layer_to_map (attach_layer_to_map layers lid) lid =
      attach_layer_to_map layers lid := by
  refine ⟨?_, ?_, ?_⟩
  · intro ls hls hmem
    subst hls
    simp [attach_layer_to_map, hmem]
  · intro hnd ls' hls'
    cases layers with
    | none =>
      simp [attach_layer_to_map] at hls'
      simp [← hls']
    | some ls =>
      by_cases hmem : lid ∈ ls
      · simp [attach_layer_to_map, hmem] at hls'
        exact hls' ▸ hnd ls rfl
      · simp [attach_layer_to_map, hmem] at hls'
        have hnd' := hnd ls rfl
        rw [← hls']
        simp [List.nodup_append, hnd', hmem]
  · cases layers with
    | none => simp [attach_layer_to_map]
    | some ls =>
      by_cases hmem : lid ∈ ls
      · simp [attach_layer_to_map, hmem]
      · simp [attach_layer_to_map, hmem]

/-- C9 witness: concrete layers arrays exercising all three parts. -/
theorem c9_witness :
    attach_layer_to_map (some ["La", "Lb"]) "La" = some ["La", "Lb"] ∧
    LayersNodup (attach_layer_to_map (some ["La", "Lb"]) "Lc") ∧
    attach_layer_to_map (attach_layer_to_map (some ["La", "Lb"]) "Lc") "Lc" =
      attach_layer_to_map (some ["La", "Lb"]) "Lc" :=
  ⟨(c9_attach_idempotent (some ["La", "Lb"]) "La").1 ["La", "Lb"] rfl
     (by decide),
   (c9_attach_idempotent (some ["La", "Lb"]) "Lc").2.1
     (by intro ls hls; injection hls with hls; subst hls; decide),
   (c9_attach_idempotent (some ["La", "Lb"]) "Lc").2.2⟩

/-- C4 counterexample: the code acquires the lock with a GET followed by a
separate unconditional SET (no SET NX). In the interleaving A.GET, B.GET,
A.SET, B.SET both requests observe the lock absent and both proceed, and
the second SET stores the key while it is already held — so acquisition
does not have atomic check-and-set semantics. -/
theorem c4_counterexample :
    (runSchedule [false, true, false, true] twoReqInit).aPc = 2 ∧
    (runSchedule [false, true, false, true] twoReqInit).bPc = 2 ∧
    (runSchedule [false, true, false, true] twoReqInit).setWhileHeld = true :=
  by decide

/-- C4 amended: acquisition is a non-atomic check-then-set, but for a
request that observes the lock held, send_map_message rejects with a 409
conflict synchronously, before any message is persisted, without starting
an orchestration round and without queueing; a request observing it free
sets the lock. -/
theorem c4_amended (nSystemMsgs : Nat) :
    send_map_message true nSystemMsgs =
      { conflict409 := true, lockSetByRequest := false, messagesPersisted := 0,
        orchestrationStarted := false, queued := false } ∧
    (send_map_message false nSystemMsgs).lockSetByRequest = true ∧
    (send_map_message false nSystemMsgs).queued = false :=
  ⟨rfl, rfl, rfl⟩

/-- C5: if the cancellation flag is set when a round reaches its model-call
checkpoint (the redis.get at the top of the round), the loop exits
immediately: no LLM call, no assistant persistence and none of that
rounds tool calls execute, the flag is deleted at the checkpoint (so a
cancellation request is consumed at most once), and the exit is the
Cancelled state. -/
theorem c5_cancellation_consumed (env : LoopEnv) (flag : Bool) (i fuel : Nat)
    (hfuel : 0 < fuel) (hflag : (flag || env.cancelBefore i) = true) :
    runRounds env flag i fuel =
      { log := [], trace := [.deleteCancelFlag], flagAfter := false,
        exit := .cancelled } := by
  match fuel, hfuel with
  | fuel + 1, _ =>
    simp [runRounds, hflag]

/-- C5 witness: a cancellation request arriving before round 0 stops the
run before any LLM call or tool execution even though the LLM would issue
tool calls every round. -/
theorem c5_witness :
    runRounds envCancelled false 0 25 =
      { log := [], trace := [.deleteCancelFlag], flagAfter := false,
        exit := .cancelled } :=
  c5_cancellation_consumed envCancelled false 0 25 (by decide) (by decide)

/-- Dispatching the tool calls of one turn performs no LLM call. -/
theorem execCalls_count_llmCall (env : LoopEnv) :
    ∀ calls : List ToolCall,
      (execCalls env calls).acts.count LoopAction.llmCall = 0
  | [] => rfl
  | tc :: rest => by
    by_cases hk : dispatchPersists env tc = true
    · simp [execCalls, hk, List.count_cons,
        execCalls_count_llmCall env rest]
    · simp [execCalls, hk]

/-- Each unit of fuel accounts for at most one LLM call. -/
theorem runRounds_count_llmCall (env : LoopEnv) :
    ∀ fuel flag i,
      (runRounds env flag i fuel).trace.count LoopAction.llmCall ≤ fuel := by
  intro fuel
  induction fuel with
  | zero => intro flag i; simp [runRounds]
  | succ fuel ih =>
    intro flag i
    by_cases h1 : (flag || env.cancelBefore i) = true
    · simp [runRounds, h1]
    · rcases hllm : env.llm i with msg | _ | _ | _
      · by_cases h2 : env.cancelMid i = true
        · simp [runRounds, h1, hllm, h2, List.count_cons]
        · by_cases h3 : msg.tool_calls.isEmpty = true
          · simp [runRounds, h1, hllm, h2, h3, List.count_cons]
          · by_cases h4 : (execCalls env msg.tool_calls).ok = true
            · simp [runRounds, h1, hllm, h2, h3, h4, List.count_cons,
                List.count_append, execCalls_count_llmCall env,
                Nat.add_le_add_iff_right]
              exact ih false (i + 1)
            · simp [runRounds, h1, hllm, h2, h3, h4, List.count_cons,
                List.count_append, execCalls_count_llmCall env]
      · simp [runRounds, h1, hllm, List.count_cons]
      · simp [runRounds, h1, hllm, List.count_cons]
      · simp [runRounds, h1, hllm, List.count_cons]

/-- C2: for any LLM behaviour, including one that issues tool calls on
every round, process_chat_interaction_task performs at most 25 model
calls (rounds) before terminating; termination itself is inherent since
the loop is structurally bounded by its `for i in range(25)` fuel. -/
theorem c2_loop_bounded (env : LoopEnv) :
    (process_chat_interaction_task env).trace.count LoopAction.llmCall ≤ 25 := by
  have h := runRounds_count_llmCall env 25 false 0
  unfold process_chat_interaction_task
  by_cases hex : (runRounds env false 0 25).exit = ExitKind.faulted
  · simpa [hex] using h
  · simpa [hex, List.count_append] using h

/-- Tool dispatch never releases the conversation lock. -/
theorem execCalls_no_releaseLock (env : LoopEnv) :
    ∀ calls : List ToolCall,
      LoopAction.releaseLock ∉ (execCalls env calls).acts
  | [] => by simp [execCalls]
  | tc :: rest => by
    by_cases hk : dispatchPersists env tc = true
    · simp [execCalls, hk]
      exact execCalls_no_releaseLock env rest
    · simp [execCalls, hk]

/-- The loop body itself never releases the conversation lock; only the
trailing redis.delete after the loop does. -/
theorem runRounds_no_releaseLock (env : LoopEnv) :
    ∀ fuel flag i,
      LoopAction.releaseLock ∉ (runRounds env flag i fuel).trace := by
  intro fuel
  induction fuel with
  | zero => intro flag i; simp [runRounds]
  | succ fuel ih =>
    intro flag i
    by_cases h1 : (flag || env.cancelBefore i) = true
    · simp [runRounds, h1]
    · rcases hllm : env.llm i with msg | _ | _ | _
      · by_cases h2 : env.cancelMid i = true
        · simp [runRounds, h1, hllm, h2]
        · by_cases h3 : msg.tool_calls.isEmpty = true
          · simp [runRounds, h1, hllm, h2, h3]
          · by_cases h4 : (execCalls env msg.tool_calls).ok = true
            · simp [runRounds, h1, hllm, h2, h3, h4,
                execCalls_no_releaseLock env]
              exact ih false (i + 1)
            · simp [runRounds, h1, hllm, h2, h3, h4,
                execCalls_no_releaseLock env]
      · simp [runRounds, h1, hllm]
      · simp [runRounds, h1, hllm]
      · simp [runRounds, h1, hllm]

/-- C3 counterexample: when the model issues a tool call whose name is in
no registry, the HTTPException(400) raised by the dispatch else-branch
propagates out of the task, so the run faults and the lock is never
released at all — releasing the lock is not the last action on this exit
path (the redis.delete of the lock is a trailing statement, not a
scoped-resource release). -/
theorem c3_counterexample :
    (process_chat_interaction_task envUnknownTool).exit = ExitKind.faulted ∧
    LoopAction.releaseLock ∉ (process_chat_interaction_task envUnknownTool).trace := by
  constructor
  · decide
  · decide

/-- C3 amended: on every non-faulted exit of the loop (Completed,
Cancelled, and the LLM-failure terminations) releasing the conversation
lock is the very last action performed, and it is performed exactly there;
a fault raised while dispatching a tool call (such as an unknown tool
name) propagates and skips the release, leaving the lock to its TTL. -/
theorem c3_amended (env : LoopEnv)
    (h : (process_chat_interaction_task env).exit ≠ ExitKind.faulted) :
    (process_chat_interaction_task env).trace.getLast? =
      some LoopAction.releaseLock ∧
    LoopAction.releaseLock ∉ (process_chat_interaction_task env).trace.dropLast := by
  unfold process_chat_interaction_task at *
  by_cases hex : (runRounds env false 0 25).exit = ExitKind.faulted
  · simp [hex] at h
  · refine ⟨?_, ?_⟩
    · simp [hex, List.getLast?_append]
    · simp [hex, List.dropLast_concat]
      exact runRounds_no_releaseLock env 25 false 0

/-- C3 witness: a plain-text LLM answer completes the run, and the lock
release is the last action. -/
theorem c3_witness :
    (process_chat_interaction_task envNoTools).trace.getLast? =
      some LoopAction.releaseLock ∧
    LoopAction.releaseLock ∉
      (process_chat_interaction_task envNoTools).trace.dropLast :=
  c3_amended envNoTools (by decide)

/-- When every call in a turn dispatches cleanly, dispatch completes and
persists one tool message per call, with matching ids, in call order. -/
theorem execCalls_dispatchable (env : LoopEnv) :
    ∀ calls : List ToolCall,
      (∀ tc ∈ calls, dispatchPersists env tc = true) →
      (execCalls env calls).ok = true ∧
      (execCalls env calls).msgs =
        calls.map (fun tc => LogMsg.tool tc.id)
  | [], _ => by simp [execCalls]
  | tc :: rest, h => by
    have hk : dispatchPersists env tc = true := h tc (by simp)
    have ih := execCalls_dispatchable env rest
      (fun tc' htc' => h tc' (by simp [htc']))
    simp [execCalls, hk, ih.1, ih.2]

/-- Checking a block of tool messages that answer the calls one-for-one in
order reduces to checking the rest of the log. -/
theorem checkAnswers_toolMsgs :
    ∀ (calls : List ToolCall) (rest : List LogMsg),
      checkAnswers calls
        (calls.map (fun tc => LogMsg.tool tc.id) ++ rest) = answeredOk rest
  | [], rest => by simp [checkAnswers]
  | tc :: tcs, rest => by
    simp [checkAnswers, checkAnswers_toolMsgs tcs rest]

/-- Under cleanly dispatching calls, every log the loop produces is a
sequence of assistant turns each immediately followed by exactly one
matching tool message per tool call, in order. -/
theorem answeredOk_runRounds (env : LoopEnv) (hk : AllCallsDispatchable env) :
    ∀ fuel flag i, answeredOk (runRounds env flag i fuel).log = true := by
  intro fuel
  induction fuel with
  | zero => intro flag i; simp [runRounds, answeredOk]
  | succ fuel ih =>
    intro flag i
    by_cases h1 : (flag || env.cancelBefore i) = true
    · simp [runRounds, h1, answeredOk]
    · rcases hllm : env.llm i with msg | _ | _ | _
      · by_cases h2 : env.cancelMid i = true
        · simp [runRounds, h1, hllm, h2, answeredOk]
        · have hcalls := hk i msg hllm
          have hexec := execCalls_dispatchable env msg.tool_calls hcalls
          by_cases h3 : msg.tool_calls.isEmpty = true
          · have : msg.tool_calls = [] := by simpa using h3
            simp [runRounds, h1, hllm, h2, h3, answeredOk, this, checkAnswers]
          · simp [runRounds, h1, hllm, h2, h3, hexec.1, answeredOk, hexec.2,
              checkAnswers_toolMsgs]
            exact ih false (i + 1)
      · simp [runRounds, h1, hllm, answeredOk]
      · simp [runRounds, h1, hllm, answeredOk]
      · simp [runRounds, h1, hllm, answeredOk]

/-- C1 counterexample: an assistant turn with a tool call named outside
every registry (and a well-formed arguments object) is persisted, but
dispatch raises HTTPException(400) at line 1986 and no tool-role message
is ever persisted for that call — the call is left unanswered in the
stored transcript. -/
theorem c1_counterexample :
    (process_chat_interaction_task envUnknownTool).log =
      [LogMsg.assistant [{ id := "call_1", name := "made_up_tool",
                           arguments := some (.obj .nil) }]] ∧
    answeredOk (process_chat_interaction_task envUnknownTool).log = false := by
  have hlog : (process_chat_interaction_task envUnknownTool).log =
      [LogMsg.assistant [{ id := "call_1", name := "made_up_tool",
                           arguments := some (.obj .nil) }]] := by
    decide
  refine ⟨hlog, ?_⟩
  rw [hlog]
  simp [answeredOk, checkAnswers]

/-- C1 amended: provided every tool call the LLM issues dispatches
cleanly — its function name resolves to a handler (pydantic registry,
static dispatch table, or geoprocessing tool name), its arguments string
is valid JSON (json.loads at line 1063 is uncaught), and its parsed
arguments avoid the uncaught pre-persist argument errors of its branch
(the query_duckdb_sql empty layer_ids IndexError at line 1655, the
new_layer_from_postgis non-string query at line 1287, and the non-string
values that reach the database driver outside any try at lines 1297,
1606, 1621, 1661, 1821, 1838: see dispatchPersists) — each tool call in a
persisted assistant turn is answered by exactly one persisted tool-role
message with the matching tool_call_id, immediately after the turn and in
call order, before the next LLM call, even when the handler body fails
(each handler branch catches its own errors and persists an error-status
payload). A tool call failing any of these conditions aborts the run
uncaught, leaving it and all later calls of the turn unanswered. -/
theorem c1_amended (env : LoopEnv) (hk : AllCallsDispatchable env) :
    answeredOk (process_chat_interaction_task env).log = true := by
  have h := answeredOk_runRounds env hk 25 false 0
  unfold process_chat_interaction_task
  by_cases hex : (runRounds env false 0 25).exit = ExitKind.faulted
  · simpa [hex] using h
  · simpa [hex] using h

/-- C1 witness: an LLM that issues a known tool call on every round. -/
theorem c1_witness :
    answeredOk (process_chat_interaction_task envAllKnown).log = true :=
  c1_amended envAllKnown (by
    intro i msg h tc htc
    have hmsg :
        msg = { content := "",
                tool_calls := [{ id := "call_1", name := "bloom_study",
                                 arguments := some (.obj .nil) }] } := by
      cases h
      rfl
    subst hmsg
    simp at htc
    subst htc
    decide)

/- check_postgis_readonly returns normally exactly when the recursive scan
finds no ModifyTable node. -/
mutual
theorem check_eq_not_hasModify :
    ∀ p : Plan, check_postgis_readonly p = !hasModifyNode p
  | .node nt plans => by
    simp [check_postgis_readonly, hasModifyNode,
      check_children_eq_not_hasModify plans, Bool.not_or]
theorem check_children_eq_not_hasModify :
    ∀ ps : PlanList,
      check_postgis_readonly_children ps = !hasModifyNodeList ps
  | .nil => rfl
  | .cons hd tl => by
    simp [check_postgis_readonly_children, hasModifyNodeList,
      check_eq_not_hasModify hd, check_children_eq_not_hasModify tl,
      Bool.not_or]
end

/-- C6: new_layer_from_postgis rejects a query whose EXPLAIN plan contains
a write-type node (ModifyTable, found by the recursive scan over Plans
children) with an error-status result before any data-reading query runs
and without inserting a map_layers row; and rejects a query whose result
set lacks a geom or an id column with the corresponding descriptive
error-status result and no inserted row. -/
theorem c6_postgis_validation (env : PostgisEnv)
    (pcid q layer_name : String) (hpcid : pcid ≠ "")
    (hq : stripTrailingSemis q ≠ "")
    (hconn : env.connectionExists = true) :
    (hasModifyNode env.plan = true →
      (new_layer_from_postgis env pcid q layer_name).1 =
        postgisError "Query validation failed: Write operations not allowed" ∧
      (new_layer_from_postgis env pcid q layer_name).2.dataReads = 0 ∧
      (new_layer_from_postgis env pcid q layer_name).2.layerInserted = false) ∧
    (hasModifyNode env.plan = false →
      env.columns.contains "geom" = false →
      (new_layer_from_postgis env pcid q layer_name).1 =
        postgisError
          "Query validation failed: Query must return a column named \x27geom\x27" ∧
      (new_layer_from_postgis env pcid q layer_name).2 = noPostgisEffects) ∧
    (hasModifyNode env.plan = false →
      env.columns.contains "geom" = true →
      env.columns.contains "id" = false →
      (new_layer_from_postgis env pcid q layer_name).1 =
        postgisError
          "Query validation failed: Query must return a column named \x27id\x27" ∧
      (new_layer_from_postgis env pcid q layer_name).2 = noPostgisEffects) := by
  refine ⟨?_, ?_, ?_⟩
  · intro hmod
    simp [new_layer_from_postgis, hpcid, hq, hconn,
      check_eq_not_hasModify, hmod, noPostgisEffects]
  · intro hmod hgeom
    have hgeom' : "geom" ∉ env.columns := by simpa using hgeom
    simp [new_layer_from_postgis, hpcid, hq, hconn,
      check_eq_not_hasModify, hmod, hgeom']
  · intro hmod hgeom hid
    have hgeom' : "geom" ∈ env.columns := by simpa using hgeom
    have hid' : "id" ∉ env.columns := by simpa using hid
    simp [new_layer_from_postgis, hpcid, hq, hconn,
      check_eq_not_hasModify, hmod, hgeom', hid']

/-- C6 witness: a DML plan, a projection without geom, and a projection
without id, each on a live connection. -/
theorem c6_witness :
    (new_layer_from_postgis envPostgisModify "conn1"
        "DELETE FROM parcels" "lyr").1 =
      postgisError "Query validation failed: Write operations not allowed" ∧
    (new_layer_from_postgis envPostgisModify "conn1"
        "DELETE FROM parcels" "lyr").2.dataReads = 0 ∧
    (new_layer_from_postgis envPostgisNoGeom "conn1"
        "SELECT id, name FROM parcels" "lyr").1 =
      postgisError
        "Query validation failed: Query must return a column named \x27geom\x27" ∧
    (new_layer_from_postgis envPostgisNoId "conn1"
        "SELECT geom, name FROM parcels" "lyr").2 = noPostgisEffects :=
  ⟨((c6_postgis_validation envPostgisModify "conn1" "DELETE FROM parcels" "lyr"
      (by decide) (by decide) rfl).1 (by decide)).1,
   ((c6_postgis_validation envPostgisModify "conn1" "DELETE FROM parcels" "lyr"
      (by decide) (by decide) rfl).1 (by decide)).2.1,
   ((c6_postgis_validation envPostgisNoGeom "conn1"
      "SELECT id, name FROM parcels" "lyr"
      (by decide) (by decide) rfl).2.1 (by decide) (by decide)).1,
   ((c6_postgis_validation envPostgisNoId "conn1"
      "SELECT geom, name FROM parcels" "lyr"
      (by decide) (by decide) rfl).2.2 (by decide) (by decide) (by decide)).2⟩

/-- C7: query_postgis_database requires an explicit LIMIT clause. A query
with no LIMIT is rejected with an error-status result; a query whose LIMIT
value exceeds 1000 is rejected; an accepted query returns a result whose
row_count is the number of rows the database returned (bounded by 1000
whenever the database honours the LIMIT clause) and whose rendered text is
size-capped at 25,000 characters (beyond that, an error-status result).
Every branch persists exactly one tool message and the loop continues. -/
theorem c7_limit_enforcement (rows : List (List (String × String)))
    (pcid q : String) (hpcid : pcid ≠ "") (hq : q ≠ "") :
    (findLimit (stripWs q) = none →
      query_postgis_database true rows pcid q =
        { tr := pgqError
            "Query must include a LIMIT clause with a value less than 1000",
          persistedToolMsgs := 1, loopContinues := true }) ∧
    (∀ v, findLimit (stripWs q) = some v → 1000 < v →
      query_postgis_database true rows pcid q =
        { tr := pgqError ("LIMIT value " ++ toString v ++
            " exceeds maximum allowed limit of 1000"),
          persistedToolMsgs := 1, loopContinues := true }) ∧
    (∀ v, findLimit (stripWs q) = some v → v ≤ 1000 → rows ≠ [] →
      (25000 < (formatPgRows rows).length →
        (query_postgis_database true rows pcid q).tr.status = "error") ∧
      ((formatPgRows rows).length ≤ 25000 →
        (query_postgis_database true rows pcid q).tr =
          { status := "success", error := none, message := none,
            result := some (formatPgRows rows),
            row_count := some rows.length, query := some (stripWs q) }) ∧
      (query_postgis_database true rows pcid q).persistedToolMsgs = 1 ∧
      (query_postgis_database true rows pcid q).loopContinues = true ∧
      (rows.length ≤ v → ∀ n,
        (query_postgis_database true rows pcid q).tr.row_count = some n →
        n ≤ 1000)) := by
  refine ⟨?_, ?_, ?_⟩
  · intro h
    simp [query_postgis_database, hpcid, hq, h]
  · intro v hv hgt
    simp [query_postgis_database, hpcid, hq, hv, hgt]
  · intro v hv hle hrows
    have hnotgt : ¬ (v > 1000) := by omega
    have hne : rows.isEmpty = false := by
      simpa [List.isEmpty_iff] using hrows
    refine ⟨?_, ?_, ?_, ?_, ?_⟩
    · intro hbig
      simp [query_postgis_database, hpcid, hq, hv, hnotgt, hne, hbig, pgqError]
    · intro hsmall
      have hnotbig : ¬ ((formatPgRows rows).length > 25000) := by omega
      simp [query_postgis_database, hpcid, hq, hv, hnotgt, hne, hnotbig]
    · by_cases hbig : (formatPgRows rows).length > 25000
      · simp [query_postgis_database, hpcid, hq, hv, hnotgt, hne, hbig]
      · simp [query_postgis_database, hpcid, hq, hv, hnotgt, hne, hbig]
    · by_cases hbig : (formatPgRows rows).length > 25000
      · simp [query_postgis_database, hpcid, hq, hv, hnotgt, hne, hbig]
      · simp [query_postgis_database, hpcid, hq, hv, hnotgt, hne, hbig]
    · intro hrl n hn
      by_cases hbig : (formatPgRows rows).length > 25000
      · simp [query_postgis_database, hpcid, hq, hv, hnotgt, hne, hbig,
          pgqError] at hn
      · simp [query_postgis_database, hpcid, hq, hv, hnotgt, hne, hbig] at hn
        omega

/-- C7 witness: LIMIT 5000 is rejected, the same query with LIMIT 500 is
accepted with a small result, and a query with no LIMIT is rejected. -/
theorem c7_witness :
    query_postgis_database true [[("count", "7")]] "conn1"
        "SELECT count(*) FROM parcels LIMIT 5000" =
      { tr := pgqError
          "LIMIT value 5000 exceeds maximum allowed limit of 1000",
        persistedToolMsgs := 1, loopContinues := true } ∧
    (query_postgis_database true [[("count", "7")]] "conn1"
        "SELECT count(*) FROM parcels LIMIT 500").tr =
      { status := "success", error := none, message := none,
        result := some (formatPgRows [[("count", "7")]]),
        row_count := some 1,
        query := some (stripWs "SELECT count(*) FROM parcels LIMIT 500") } ∧
    query_postgis_database true [[("count", "7")]] "conn1"
        "SELECT count(*) FROM parcels" =
      { tr := pgqError
          "Query must include a LIMIT clause with a value less than 1000",
        persistedToolMsgs := 1, loopContinues := true } :=
  ⟨(c7_limit_enforcement [[("count", "7")]] "conn1"
      "SELECT count(*) FROM parcels LIMIT 5000" (by decide) (by decide)).2.1
      5000 (by decide) (by decide),
   ((c7_limit_enforcement [[("count", "7")]] "conn1"
      "SELECT count(*) FROM parcels LIMIT 500" (by decide) (by decide)).2.2
      500 (by decide) (by decide) (by decide)).2.1 (by decide),
   (c7_limit_enforcement [[("count", "7")]] "conn1"
      "SELECT count(*) FROM parcels" (by decide) (by decide)).1 (by decide)⟩

/- Applying the safe encoder to an already-encoded value changes nothing:
the coercions (date to ISO string, decimal to string) are exhausted after
one pass, so serialization is idempotent. -/
mutual
theorem encode_idem : ∀ v : EVal, encode (encode v) = encode v
  | .null => rfl
  | .bool _ => rfl
  | .num _ => rfl
  | .str _ => rfl
  | .date _ => rfl
  | .dec _ => rfl
  | .arr xs => by simp [encode, encodeArr_idem xs]
  | .obj fs => by simp [encode, encodeObj_idem fs]
theorem encodeArr_idem : ∀ xs : EArr, encodeArr (encodeArr xs) = encodeArr xs
  | .nil => rfl
  | .cons hd tl => by simp [encodeArr, encode_idem hd, encodeArr_idem tl]
theorem encodeObj_idem : ∀ fs : EObj, encodeObj (encodeObj fs) = encodeObj fs
  | .nil => rfl
  | .cons k v tl => by simp [encodeObj, encode_idem v, encodeObj_idem tl]
end

/- The encoder output is JSON-native, so json.loads of the emitted text
reproduces exactly the encoded structure (stdlib round trip on native
values). -/
mutual
theorem encode_plain : ∀ v : EVal, isPlainJson (encode v) = true
  | .null => rfl
  | .bool _ => rfl
  | .num _ => rfl
  | .str _ => rfl
  | .date _ => rfl
  | .dec _ => rfl
  | .arr xs => by simp [encode, isPlainJson, encodeArr_plain xs]
  | .obj fs => by simp [encode, isPlainJson, encodeObj_plain fs]
theorem encodeArr_plain : ∀ xs : EArr, isPlainJsonArr (encodeArr xs) = true
  | .nil => rfl
  | .cons hd tl => by
    simp [encodeArr, isPlainJsonArr, encode_plain hd, encodeArr_plain tl]
theorem encodeObj_plain : ∀ fs : EObj, isPlainJsonObj (encodeObj fs) = true
  | .nil => rfl
  | .cons k v tl => by
    simp [encodeObj, isPlainJsonObj, encode_plain v, encodeObj_plain tl]
end

/-- Encoding keeps the object field names, in order. -/
theorem fieldNames_encodeObj : ∀ fs : EObj, fieldNames (encodeObj fs) = fieldNames fs
  | .nil => rfl
  | .cons k v tl => by simp [encodeObj, fieldNames, fieldNames_encodeObj tl]

/-- Looking a key up after encoding yields the encoded original value. -/
theorem lookupEObj_encodeObj (key : String) :
    ∀ fs : EObj, lookupEObj key (encodeObj fs) = (lookupEObj key fs).map encode
  | .nil => rfl
  | .cons k v tl => by
    by_cases hk : k = key
    · simp [encodeObj, lookupEObj, hk]
    · simp [encodeObj, lookupEObj, hk, lookupEObj_encodeObj key tl]

/-- C8: a tool-result payload serialized through json_dumps_safe and
re-parsed reproduces the same structure: the stored content is the encoded
value (dates as ISO strings, decimals as strings), it is JSON-native so
json.loads returns it unchanged, serializing it again yields the very same
string (idempotent serialization), the re-parsed object keeps the same
field names, and the status field is reproduced verbatim. -/
theorem c8_serialization_roundtrip (v : EVal) :
    encode (encode v) = encode v ∧
    dumps (encode (encode v)) = dumps (encode v) ∧
    isPlainJson (encode v) = true ∧
    (∀ fs, v = .obj fs →
      fieldNames (encodeObj fs) = fieldNames fs ∧
      ∀ st, lookupEObj "status" fs = some (.str st) →
        lookupEObj "status" (encodeObj fs) = some (.str st)) := by
  refine ⟨encode_idem v, congrArg dumps (encode_idem v), encode_plain v, ?_⟩
  intro fs _ 
  refine ⟨fieldNames_encodeObj fs, ?_⟩
  intro st hst
  rw [lookupEObj_encodeObj "status" fs, hst]
  rfl

/-- C8 witness: a payload with a success status, a date field and a
decimal field. -/
theorem c8_witness :
    encode (encode sampleResult) = encode sampleResult ∧
    fieldNames (encodeObj sampleFields) = fieldNames sampleFields ∧
    lookupEObj "status" (encodeObj sampleFields) =
      some (EVal.str "success") :=
  ⟨(c8_serialization_roundtrip sampleResult).1,
   ((c8_serialization_roundtrip sampleResult).2.2.2 sampleFields rfl).1,
   ((c8_serialization_roundtrip sampleResult).2.2.2 sampleFields rfl).2
     "success" rfl⟩
